import Mathlib

/-!
Verification of the OCIGenAIBot advisory chatbot.

This development shallowly embeds the intent-routing, advisor-adapter,
artifact-lifecycle and download-serving logic of the repository
(`AskMeChatBot.py`, `func_replica.py`, `RCOEGenAIAgents.py`,
`mcp_servers/advisors.py`) as executable Lean definitions, and proves or
refutes the specification's claims about them.

External effects are modelled explicitly: the remote classifier's raw
output is an `Option String` argument (`none` = transport error, empty
response, or unavailable client), HTTP download attempts are a function
from attempt index to an outcome, and the object / download stores are
passed and returned as values.
-/

namespace OCIBot

/-! ## String utilities mirroring the Python primitives used by the source -/

/-- Python `str.lower()` (per-character lowering, as used on ASCII queries). -/
def pyLower (s : String) : String := ⟨s.data.map Char.toLower⟩

/-- Substring test on character lists: Python's `needle in hay`. -/
def containsL (needle hay : List Char) : Bool :=
  needle.isPrefixOf hay ||
    match hay with
    | [] => false
    | _ :: t => containsL needle t

/-- Python's `needle in hay` membership test for strings. -/
def pyIn (needle hay : String) : Bool := containsL needle.data hay.data

/-- Left-to-right non-overlapping occurrence counting, fuelled so that the
kernel can evaluate it (for a non-empty needle, `hay.length + 1` fuel always
suffices since every step consumes at least one character of `hay`). -/
def countFuel (needle : List Char) : Nat → List Char → Nat
  | 0, _ => 0
  | fuel + 1, hay =>
    if needle.isPrefixOf hay then
      1 + countFuel needle fuel (hay.drop needle.length)
    else
      match hay with
      | [] => 0
      | _ :: t => countFuel needle fuel t

/-- Python's `hay.count(needle)`: number of non-overlapping occurrences,
scanning left to right.  `hay.count("")` is `len(hay) + 1` in Python. -/
def countL (needle hay : List Char) : Nat :=
  if needle = [] then hay.length + 1
  else countFuel needle (hay.length + 1) hay

/-- Python's `hay.count(needle)` for strings. -/
def pyCount (needle hay : String) : Nat := countL needle.data hay.data

/-- Python's `str.strip()`: remove leading and trailing whitespace. -/
def pyStrip (s : String) : String :=
  ⟨((s.data.dropWhile Char.isWhitespace).reverse.dropWhile Char.isWhitespace).reverse⟩

/-- A keyword list matches when any keyword occurs in the (lower-cased) prompt:
Python `any(keyword in prompt_lower for keyword in kws)`. -/
def anyKeywordIn (kws : List String) (promptLower : String) : Bool :=
  kws.any (fun k => pyIn k promptLower)

/-- Total keyword-occurrence count of a keyword list in the lower-cased prompt:
Python `sum(prompt_lower.count(word) for word in kws)`. -/
def wordCount (kws : List String) (promptLower : String) : Nat :=
  (kws.map (fun k => pyCount k promptLower)).sum

/-! ## The intent router of `AskMeChatBot.py` -/

/-- The five advisor agents. -/
inductive Advisor : Type
  | general
  | finance
  | hr
  | orders
  | reports
deriving DecidableEq, Repr

/-- Gen AI intent routing mode (`genai_intent_mode`): auto, force or off. -/
inductive IntentMode : Type
  | auto
  | force
  | off
deriving DecidableEq, Repr

/-- The closed label set accepted by `detect_intent_with_genai`
(`AskMeChatBot.py` line 1015). -/
def validIntents : List String := ["general", "finance", "hr", "orders", "reports"]

/-- `detect_intent_with_genai` (`AskMeChatBot.py` lines 958-1027), with the raw
classifier output abstracted: `none` models an unavailable client, a transport
error, or an empty response (all of which the source maps to `None`).  A raw
output is stripped, lower-cased and accepted only when it is exactly one of
the five valid labels. -/
def detectIntentWithGenai (raw : Option String) : Option String :=
  match raw with
  | none => none
  | some t =>
    let intent := pyLower (pyStrip t)
    if validIntents.contains intent then some intent else none

/-- Keyword map of `process_user_query` (`AskMeChatBot.py` lines 1073-1079). -/
def generalKeywords : List String :=
  ["general", "help", "what can you do", "capabilities", "services", "assist",
   "how can", "what do you", "tell me about", "who are you", "what services",
   "nlp", "nlp2sql"]

def financeKeywords : List String :=
  ["finance", "revenue", "budget", "expense", "cost", "money", "financial",
   "profit", "loss"]

def hrKeywords : List String :=
  ["hr", "policy", "benefit", "leave", "employee", "work", "holiday",
   "vacation", "staff"]

def ordersKeywords : List String :=
  ["order", "inventory", "delivery", "return", "shipping", "stock", "product",
   "item", "sales"]

def reportsKeywords : List String :=
  ["workbook", "analytics", "export", "oac", "dashboard", "visualization"]

/-- Python `max(word_counts.items(), key=lambda x: x[1])[0]` over the dict with
insertion order finance, hr, orders, reports: the first advisor attaining the
maximal count wins (Python `max` keeps the earliest maximal element). -/
def argmaxAdvisor (cf ch co cr : Nat) : Advisor :=
  if ch ≤ cf ∧ co ≤ cf ∧ cr ≤ cf then Advisor.finance
  else if co ≤ ch ∧ cr ≤ ch then Advisor.hr
  else if cr ≤ co then Advisor.orders
  else Advisor.reports

/-- The keyword-routing path of `process_user_query`
(`AskMeChatBot.py` lines 1069-1136), returning the list of advisors invoked
(one `AdvisorResult` is appended per invocation, in this order). -/
def askmeKeywordRoute (prompt : String) : List Advisor :=
  let pl := pyLower prompt
  if anyKeywordIn generalKeywords pl then [Advisor.general]
  else
    let responses : List Advisor :=
      (if anyKeywordIn financeKeywords pl then [Advisor.finance] else []) ++
      (if anyKeywordIn hrKeywords pl then [Advisor.hr] else []) ++
      (if anyKeywordIn ordersKeywords pl then [Advisor.orders] else []) ++
      (if anyKeywordIn reportsKeywords pl then [Advisor.reports] else [])
    if responses.isEmpty then
      let cf := wordCount financeKeywords pl
      let ch := wordCount hrKeywords pl
      let co := wordCount ordersKeywords pl
      let cr := wordCount reportsKeywords pl
      if 0 < max (max cf ch) (max co cr) then [argmaxAdvisor cf ch co cr]
      else [Advisor.general]
    else responses

/-- Routing by a validated Gen AI label (`AskMeChatBot.py` lines 1047-1061):
the if/elif chain appends exactly one advisor for a valid label. -/
def advisorOfLabel (l : String) : List Advisor :=
  if l = "general" then [Advisor.general]
  else if l = "finance" then [Advisor.finance]
  else if l = "hr" then [Advisor.hr]
  else if l = "orders" then [Advisor.orders]
  else if l = "reports" then [Advisor.reports]
  else []

/-- `process_user_query` (`AskMeChatBot.py` lines 1029-1136): Gen AI intent
detection is attempted when the client is available and the mode is not off;
a validated label routes to that single advisor, otherwise (including
mode=force with a failed detection) the keyword path runs. -/
def processUserQuery (clientAvailable : Bool) (mode : IntentMode)
    (raw : Option String) (prompt : String) : List Advisor :=
  if clientAvailable = true ∧ mode ≠ IntentMode.off then
    match detectIntentWithGenai raw with
    | some i => advisorOfLabel i
    | none => askmeKeywordRoute prompt
  else askmeKeywordRoute prompt

/-! ## The intent router of `func_replica.py` -/

/-- `INTENTS` (`func_replica.py` line 259). -/
def INTENTS : List String := ["general", "finance", "hr", "orders", "reports"]

/-- `detect_intent` (`func_replica.py` lines 261-283): the classifier text is
stripped and lower-cased, then the FIRST intent of `INTENTS` occurring as a
substring of it is returned (`for intent in INTENTS: if intent in text`).
`none` models an unavailable client, mode=off, an exception, or no match. -/
def replicaDetectIntent (clientAvailable : Bool) (mode : IntentMode)
    (raw : Option String) : Option String :=
  if clientAvailable = false ∨ mode = IntentMode.off then none
  else
    match raw with
    | none => none
    | some t =>
      let text := pyLower (pyStrip t)
      INTENTS.find? (fun intent => pyIn intent text)

/-- `ADVISOR_KEYWORDS` (`func_replica.py` lines 538-544). -/
def rGeneralKeywords : List String :=
  ["general", "help", "what can you do", "capabilities", "nlp", "nl2sql",
   "database", "table", "query"]

def rFinanceKeywords : List String :=
  ["finance", "revenue", "budget", "expense", "cost", "money"]

def rHrKeywords : List String :=
  ["hr", "policy", "benefit", "leave", "employee", "vacation"]

def rOrdersKeywords : List String :=
  ["order", "inventory", "delivery", "shipping", "stock", "sales"]

def rReportsKeywords : List String :=
  ["workbook", "analytics", "export", "oac", "dashboard"]

/-- `ADVISOR_FUNCS.get(routed, advisor_general)` (`func_replica.py`
lines 546-552): map a routed label to its advisor, defaulting to general. -/
def advisorFuncOf (l : String) : Advisor :=
  if l = "finance" then Advisor.finance
  else if l = "hr" then Advisor.hr
  else if l = "orders" then Advisor.orders
  else if l = "reports" then Advisor.reports
  else Advisor.general

/-- `process_chat` (`func_replica.py` lines 558-574), returning the advisors
invoked in order.  When the classifier routes, exactly one advisor runs.
Otherwise keyword matching appends the general advisor first when general
keywords match and then EVERY other advisor whose keywords match; when
nothing matched, the general advisor runs. -/
def processChat (clientAvailable : Bool) (mode : IntentMode)
    (raw : Option String) (prompt : String) : List Advisor :=
  let routed := if mode ≠ IntentMode.off then
      replicaDetectIntent clientAvailable mode raw
    else none
  match routed with
  | some l => [advisorFuncOf l]
  | none =>
    let lower := pyLower prompt
    let advisors : List Advisor :=
      (if anyKeywordIn rGeneralKeywords lower then [Advisor.general] else []) ++
      (if anyKeywordIn rFinanceKeywords lower then [Advisor.finance] else []) ++
      (if anyKeywordIn rHrKeywords lower then [Advisor.hr] else []) ++
      (if anyKeywordIn rOrdersKeywords lower then [Advisor.orders] else []) ++
      (if anyKeywordIn rReportsKeywords lower then [Advisor.reports] else [])
    if advisors.isEmpty then [Advisor.general] else advisors

/-! ## Mock-mode advisor adapters

In mock mode the adapters are pure: the source's mock branches perform no
HTTP request, so they are embedded as plain functions of the query (or as
constants when the branch ignores the query). -/

/-- `MOCK_RESPONSES["finance"]` (`AskMeChatBot.py` lines 176-180), in dict
insertion order. -/
def financeMockResponses : List (String × String) :=
  [("revenue", "Based on our financial analysis, the Q3 revenue shows a 15% increase YoY with strong performance in APAC region."),
   ("expenses", "Current expense trends indicate a 10% reduction in operational costs due to automation initiatives."),
   ("budget", "The annual budget allocation shows 40% for R&D, 30% for Operations, and 30% for Marketing.")]

/-- `get_finance_advice` mock branch (`AskMeChatBot.py` lines 314-323): the
first keyword of the finance mock table occurring in the lower-cased query
selects its canned string; otherwise the "budget" entry is the default. -/
def getFinanceAdviceMock (query : String) : String :=
  let ql := pyLower query
  match financeMockResponses.find? (fun p => pyIn p.1 ql) with
  | some p => p.2
  | none => "The annual budget allocation shows 40% for R&D, 30% for Operations, and 30% for Marketing."

/-- The artifact dictionary attached by `func_replica.py` advisor results. -/
structure ArtifactLite where
  id : String
  type : String
  status : String
deriving DecidableEq, Repr

/-- A normalized `func_replica.py` advisor result dictionary. -/
structure AdvisorOut where
  name : String
  type : String
  source : String
  text : String
  artifact : Option ArtifactLite
deriving DecidableEq, Repr

/-- `advisor_finance` mock branch (`func_replica.py` lines 321-322). -/
def advisorFinanceMock : AdvisorOut :=
  { name := "Finance Advisor 💰", type := "finance", source := "mock",
    text := "Finance advisor mock: budget allocation 40% R&D, 30% Ops, 30% Marketing.",
    artifact := none }

/-- `advisor_hr` mock fallback (`func_replica.py` line 432). -/
def advisorHrMock : AdvisorOut :=
  { name := "HR Advisor 👥", type := "hr", source := "mock",
    text := "HR policies include 20 days PTO, comprehensive health coverage, and flexible remote work.",
    artifact := none }

/-- `advisor_orders` mock branch (`func_replica.py` line 442). -/
def advisorOrdersMock : AdvisorOut :=
  { name := "Orders Advisor 📦", type := "orders", source := "mock",
    text := "Recent orders: fulfillment 95%, avg delivery 2.3 days.",
    artifact := none }

/-- `advisor_general` static fallback (`func_replica.py` line 313), the
branch taken when neither the NL2SQL endpoint nor the Gen AI client is
available. -/
def advisorGeneralStatic : AdvisorOut :=
  { name := "General Advisor 🤖", type := "general", source := "static",
    text := "I can help with general queries, database questions (via NL2SQL), and routing to other advisors.",
    artifact := none }

/-- `advisor_reports` mock branch (`func_replica.py` lines 513-514): unlike
every other mock advisor it attaches an artifact — a pending pdf marker whose
id is a fresh uuid, passed in here as `freshId`. -/
def advisorReportsMock (freshId : String) : AdvisorOut :=
  { name := "Reports Advisor 📊", type := "reports", source := "mock",
    text := "Reports export mock started.",
    artifact := some { id := freshId, type := "pdf", status := "pending" } }

/-! ## Base64 (Python `base64.b64encode` / `b64decode`)

Bytes are modelled as natural numbers below 256.  Encoding is standard
base64 with `=` padding.  Decoding is modelled strictly (well-formed groups
of four alphabet characters with standard padding decode; anything else is a
failure); Python's default decoder is additionally lenient about discarding
non-alphabet characters, which the claims never rely on. -/

def b64Alphabet : List Char :=
  "ABCDEFGHIJKLMNOPQRSTUVWXYZabcdefghijklmnopqrstuvwxyz0123456789+/".data

def b64Char (n : Nat) : Char := b64Alphabet.getD n 'A'

def b64EncodeList : List Nat → List Char
  | [] => []
  | [a] => [b64Char (a / 4), b64Char (a % 4 * 16), '=', '=']
  | [a, b] => [b64Char (a / 4), b64Char (a % 4 * 16 + b / 16), b64Char (b % 16 * 4), '=']
  | a :: b :: c :: rest =>
    b64Char (a / 4) :: b64Char (a % 4 * 16 + b / 16) ::
      b64Char (b % 16 * 4 + c / 64) :: b64Char (c % 64) :: b64EncodeList rest

/-- `base64.b64encode(bytes).decode('utf-8')`. -/
def b64Encode (bytes : List Nat) : String := ⟨b64EncodeList bytes⟩

/-- Index of a character in the base64 alphabet. -/
def b64Val (c : Char) : Option Nat :=
  let i := b64Alphabet.indexOf c
  if i < 64 then some i else none

def b64DecodeGroups : List Char → Option (List Nat)
  | [] => some []
  | [a, b, '=', '='] => do
    let va ← b64Val a
    let vb ← b64Val b
    pure [va * 4 + vb / 16]
  | [a, b, c, '='] => do
    let va ← b64Val a
    let vb ← b64Val b
    let vc ← b64Val c
    pure [va * 4 + vb / 16, vb % 16 * 16 + vc / 4]
  | a :: b :: c :: d :: rest => do
    let va ← b64Val a
    let vb ← b64Val b
    let vc ← b64Val c
    let vd ← b64Val d
    let tail ← b64DecodeGroups rest
    pure ([va * 4 + vb / 16, vb % 16 * 16 + vc / 4, vc % 4 * 64 + vd] ++ tail)
  | _ => none

/-- `base64.b64decode(s)` on well-formed input; `none` models the decode
error that Python raises (and the route handler catches as a 500). -/
def b64Decode (s : String) : Option (List Nat) := b64DecodeGroups s.data

/-! ## The Reports adapter's wait-and-retry download loop
(`AskMeChatBot.py` `get_reports_advice`, lines 749-783) -/

/-- Outcome of one HTTP GET of the export download endpoint: a response
carrying its status code and binary body, or a request timeout. -/
inductive DLOutcome : Type
  | resp (status : Nat) (body : List Nat)
  | timeout
deriving DecidableEq, Repr

/-- Whether an attempt outcome is an HTTP 200 response. -/
def DLOutcome.isOk : DLOutcome → Bool
  | .resp s _ => s == 200
  | .timeout => false

/-- The `for attempt in range(max_attempts)` loop: `f` gives the outcome of
each attempt, `prev` is the last response assigned to `download_resp` (a
timeout leaves it unchanged), `slept` accumulates `time.sleep` seconds (10
between attempts, skipped after the final one: `attempt < max_attempts - 1`
is `0 < remaining` here).  Returns the final `download_resp` (status, body)
and the seconds slept.  Breaks at the first status-200 response. -/
def runAttemptsAux (f : Nat → DLOutcome) :
    Nat → Nat → Option (Nat × List Nat) → Nat → Option (Nat × List Nat) × Nat
  | _, 0, prev, slept => (prev, slept)
  | idx, r + 1, prev, slept =>
    match f idx with
    | .resp s body =>
      if s = 200 then (some (s, body), slept)
      else
        runAttemptsAux f (idx + 1) r (some (s, body))
          (if 0 < r then slept + 10 else slept)
    | .timeout =>
      runAttemptsAux f (idx + 1) r prev
        (if 0 < r then slept + 10 else slept)

/-- The download section of `get_reports_advice` after export initiation:
an initial `time.sleep(30)`, then up to 3 download attempts; on a final 200
the body is base64-encoded into a `REPORT_DOWNLOAD:Reports:PDF:` marker
(`export_format.upper()` of "pdf"), otherwise the retry-exhausted failure
text is returned.  The second component is the total seconds slept. -/
def reportsDownloadLoop (f : Nat → DLOutcome) : String × Nat :=
  let res := runAttemptsAux f 0 3 none 30
  match res.1 with
  | some (s, body) =>
    if s = 200 then ("REPORT_DOWNLOAD:Reports:PDF:" ++ b64Encode body, res.2)
    else ("Reports download failed after retries. Please try again later.", res.2)
  | none => ("Reports download failed after retries. Please try again later.", res.2)

/-! ## Orders list sorting (`get_orders_advice`, `AskMeChatBot.py`
lines 545-555; identically `mcp_servers/advisors.py` lines 288-296) -/

def digitVal (c : Char) : Option Nat :=
  if c.isDigit then some (c.toNat - 48) else none

def digitsToNat (cs : List Char) : Option Nat :=
  cs.foldl
    (fun acc c =>
      match acc, digitVal c with
      | some a, some d => some (a * 10 + d)
      | _, _ => none)
    (some 0)

def isLeap (y : Nat) : Bool := (y % 4 == 0 && y % 100 != 0) || y % 400 == 0

def daysInMonth (y m : Nat) : Nat :=
  if m = 2 then (if isLeap y then 29 else 28)
  else if m = 4 ∨ m = 6 ∨ m = 9 ∨ m = 11 then 30
  else 31

/-- Modelled subset of Python `datetime.fromisoformat` as used by `_parse_dt`:
accepts the naive forms `YYYY-MM-DD` and `YYYY-MM-DDTHH:MM:SS` (separator
`T` or space) with calendar validation.  Fractional seconds and timezone
offsets (including the `Z`-replaced `+00:00` form, which in Python yields an
offset-aware value) are outside the modelled subset and map to a parse
failure. -/
def parseIsoDateTime (s : String) : Option (Nat × Nat × Nat × Nat × Nat × Nat) :=
  match s.data with
  | [y1, y2, y3, y4, '-', m1, m2, '-', d1, d2] => do
    let y ← digitsToNat [y1, y2, y3, y4]
    let m ← digitsToNat [m1, m2]
    let d ← digitsToNat [d1, d2]
    if 1 ≤ y ∧ 1 ≤ m ∧ m ≤ 12 ∧ 1 ≤ d ∧ d ≤ daysInMonth y m then
      pure (y, m, d, 0, 0, 0)
    else none
  | [y1, y2, y3, y4, '-', m1, m2, '-', d1, d2, sep, h1, h2, ':', n1, n2, ':', s1, s2] => do
    let y ← digitsToNat [y1, y2, y3, y4]
    let m ← digitsToNat [m1, m2]
    let d ← digitsToNat [d1, d2]
    let hh ← digitsToNat [h1, h2]
    let mi ← digitsToNat [n1, n2]
    let ss ← digitsToNat [s1, s2]
    if (sep = 'T' ∨ sep = ' ') ∧ 1 ≤ y ∧ 1 ≤ m ∧ m ≤ 12 ∧ 1 ≤ d ∧
        d ≤ daysInMonth y m ∧ hh ≤ 23 ∧ mi ≤ 59 ∧ ss ≤ 59 then
      pure (y, m, d, hh, mi, ss)
    else none
  | _ => none

/-- Order-preserving numeric encoding of a naive datetime (all fields are
within their calendar bounds, so lexicographic comparison — Python datetime
ordering — agrees with this encoding). -/
def dtKey : Nat × Nat × Nat × Nat × Nat × Nat → Nat
  | (y, m, d, h, mi, s) => ((((y * 13 + m) * 32 + d) * 24 + h) * 60 + mi) * 60 + s

/-- `datetime.min`, i.e. 0001-01-01 00:00:00. -/
def dtMin : Nat := dtKey (1, 1, 1, 0, 0, 0)

/-- `_parse_dt(it.get('LastUpdateDate'))`: a missing field (`none`) or an
unparsable string yields `datetime.min`. -/
def parseDtKey (s : Option String) : Nat :=
  match s with
  | none => dtMin
  | some str =>
    match parseIsoDateTime str with
    | some dt => dtKey dt
    | none => dtMin

/-- A timestamp value that `_parse_dt` cannot parse (missing or malformed). -/
def unparsableTS : Option String → Bool
  | none => true
  | some str => (parseIsoDateTime str).isNone

/-- One entry of the Orders list response (`items` element fields used by the
source). -/
structure OrderItem where
  orderKey : String
  statusCode : String
  createdBy : String
  lastUpdateDate : Option String
deriving DecidableEq, Repr

/-- Stable descending insertion: `x` (earlier in the input than everything in
the sorted rest) is placed before the first element whose key is not larger,
which is the ordering produced by Python's stable
`sorted(..., key=..., reverse=True)`. -/
def insertDescBy (key : OrderItem → Nat) (x : OrderItem) :
    List OrderItem → List OrderItem
  | [] => [x]
  | y :: ys => if key y ≤ key x then x :: y :: ys else y :: insertDescBy key x ys

def sortDescBy (key : OrderItem → Nat) : List OrderItem → List OrderItem
  | [] => []
  | x :: xs => insertDescBy key x (sortDescBy key xs)

/-- `sorted(items, key=lambda it: _parse_dt(it.get('LastUpdateDate')),
reverse=True)`. -/
def sortOrdersByDate (items : List OrderItem) : List OrderItem :=
  sortDescBy (fun it => parseDtKey it.lastUpdateDate) items

/-! ## Object Storage artifact persistence (`func_replica.py`) -/

/-- Artifact metadata JSON persisted beside the binary
(`func_replica.py` lines 521-528, 358-367). -/
structure ArtifactMeta where
  id : String
  type : String
  advisor : String
  status : String
  filename : String
  created : String
  contentType : Option String
  size : Option Nat
deriving DecidableEq, Repr

/-- The Object Storage bucket: metadata objects (keys `artifact/<id>.json`)
and binary objects, addressed by full object name.  The JSON round-trip of
metadata (`json.dumps` / `json.loads`) is modelled as the identity. -/
structure ObjectStore where
  metas : List (String × ArtifactMeta)
  bins : List (String × List Nat)
deriving DecidableEq, Repr

/-- `put_object` on a metadata key (Object Storage overwrites by name). -/
def putMeta (s : ObjectStore) (k : String) (m : ArtifactMeta) : ObjectStore :=
  { s with metas := (k, m) :: s.metas.filter (fun p => p.1 != k) }

/-- `put_object` on a binary key. -/
def putBin (s : ObjectStore) (k : String) (b : List Nat) : ObjectStore :=
  { s with bins := (k, b) :: s.bins.filter (fun p => p.1 != k) }

/-- The placeholder bytes written by `process_download` when it simulates
completion of a pending export (`func_replica.py` line 608, the literal
`b"%PDF-1.4\n%\xe2\xe3\xcf\xd3\n1 0 obj\n<<>>\nendobj\ntrailer\n<<>>\n%%EOF"`). -/
def dummyPdf : List Nat :=
  [37, 80, 68, 70, 45, 49, 46, 52, 10,
   37, 226, 227, 207, 211, 10,
   49, 32, 48, 32, 111, 98, 106, 10,
   60, 60, 62, 62, 10,
   101, 110, 100, 111, 98, 106, 10,
   116, 114, 97, 105, 108, 101, 114, 10,
   60, 60, 62, 62, 10,
   37, 37, 69, 79, 70]

/-- Result dictionary of `process_download` (`func_replica.py` lines 597-618):
the storage-unconfigured error, the metadata-not-found error, a ready
artifact (its presigned URL modelled by the binary object key it grants
access to, together with the message), or the not-ready reply. -/
inductive DownloadResult : Type
  | storageError
  | metadataError
  | ready (meta : ArtifactMeta) (presignKey : String) (message : String)
  | notReady (meta : ArtifactMeta) (message : String)
deriving DecidableEq, Repr

/-- `process_download` (`func_replica.py` lines 597-618).  `configured`
models `object_client and ARTIFACT_BUCKET and namespace_name`.  On a pending
metadata record the source simulates completion: it writes the placeholder
binary, flips the status to ready (updating size and content type), persists
the metadata, and then serves the artifact as ready.  Returns the result and
the object store after the call. -/
def processDownload (configured : Bool) (s : ObjectStore) (artifactId : String) :
    DownloadResult × ObjectStore :=
  if configured = false then (DownloadResult.storageError, s)
  else
    let metaKey := "artifact/" ++ artifactId ++ ".json"
    match s.metas.lookup metaKey with
    | none => (DownloadResult.metadataError, s)
    | some meta =>
      let step : ArtifactMeta × ObjectStore :=
        if meta.status = "pending" then
          let m1 := { meta with
                      status := "ready", size := some dummyPdf.length,
                      contentType := some "application/pdf" }
          (m1, putMeta (putBin s ("artifact/" ++ artifactId ++ ".pdf") dummyPdf) metaKey m1)
        else (meta, s)
      if step.1.status = "ready" then
        (DownloadResult.ready step.1 ("artifact/" ++ artifactId ++ ".pdf")
          ("Artifact ready: " ++ step.1.filename), step.2)
      else (DownloadResult.notReady step.1 "Artifact not ready yet", step.2)

/-- A pending reports artifact as stored by `advisor_reports`. -/
def pendingMeta : ArtifactMeta :=
  { id := "a1", type := "pdf", advisor := "reports", status := "pending",
    filename := "Analytics_Report_1.pdf", created := "2025-01-01T00:00:00Z",
    contentType := none, size := none }

/-- A store holding only the pending artifact `a1`. -/
def pendingStore : ObjectStore :=
  { metas := [("artifact/a1.json", pendingMeta)], bins := [] }

/-- A second pending artifact, `a2`. -/
def pendingMeta2 : ArtifactMeta :=
  { id := "a2", type := "pdf", advisor := "reports", status := "pending",
    filename := "Analytics_Report_2.pdf", created := "2025-02-01T00:00:00Z",
    contentType := none, size := none }

/-! ## Response assembly and the chat route (`AskMeChatBot.py`) -/

/-- Python `str.upper()` (per-character, as used on ASCII format names). -/
def pyUpper (s : String) : String := ⟨s.data.map Char.toUpper⟩

/-- Fuelled worker for Python `s.split(sep)` with a non-empty separator:
non-overlapping left-to-right split (`hay.length + 1` fuel suffices). -/
def splitFuel (sep : List Char) : Nat → List Char → List Char → List (List Char)
  | 0, _, acc => [acc.reverse]
  | fuel + 1, cs, acc =>
    if sep.isPrefixOf cs ∧ sep ≠ [] then
      acc.reverse :: splitFuel sep fuel (cs.drop sep.length) []
    else
      match cs with
      | [] => [acc.reverse]
      | c :: t => splitFuel sep fuel t (c :: acc)

/-- Python `s.split(sep)` for a non-empty separator. -/
def pySplit (sep s : String) : List String :=
  (splitFuel sep.data (s.data.length + 1) s.data []).map (fun l => ⟨l⟩)

/-- Python `s.split(sep)[1]` as used under a `sep in s` guard: the portion
between the first and second occurrence of `sep` (through the end when `sep`
occurs once). -/
def afterFirst (sep s : String) : String := (pySplit sep s).getD 1 ""

/-- Python `s.split(":", 1)`: `some (before, after)` when a colon occurs in
`s`, else `none` (the single-element Python result). -/
def splitFirstColon (s : String) : Option (String × String) :=
  let pre := s.data.takeWhile (fun c => c != ':')
  let post := s.data.dropWhile (fun c => c != ':')
  match post with
  | [] => none
  | _ :: t => some (⟨pre⟩, ⟨t⟩)

/-- The 28-character separator line drawn under each advisor title. -/
def sepLine : String := ⟨List.replicate 28 '─'⟩

/-- Whether an advisor response carries a download marker
(`format_response` line 927). -/
def containsMarker (r : String) : Bool :=
  pyIn "PDF_DOWNLOAD:" r || pyIn "REPORT_DOWNLOAD:" r

/-- The contextual hint appended when exactly one advisor answered
(`format_response` lines 941-952); the advisor type is the first word of the
advisor title, lower-cased. -/
def hintFor (advisorTitle : String) : String :=
  let t := pyLower ((pySplit " " advisorTitle).getD 0 "")
  if t = "general" then
    "\n💡 I can route your questions to Finance, HR, Orders, or Reports advisors."
  else if t = "finance" then
    "\n💡 You can also ask about budgets, expenses, or revenue forecasts."
  else if t = "hr" then
    "\n💡 Feel free to ask about benefits, leaves, or company policies."
  else if t = "orders" then
    "\n💡 You can inquire about inventory levels or return rates as well."
  else if t = "reports" then
    "\n💡 You can request analytics dashboards or workbook exports."
  else ""

/-- `format_response` (`AskMeChatBot.py` lines 921-956): if any advisor
response contains a download marker, the first such response is returned
as-is and alone; otherwise the responses are formatted with a header, per
advisor title and separator, a contextual hint for a single advisor, and a
timestamp (`now` abstracts `datetime.now().strftime`). -/
def formatResponse (advisors : List (String × String)) (now : String) : String :=
  match advisors.find? (fun p => containsMarker p.2) with
  | some p => p.2
  | none =>
    let header :=
      if 1 < advisors.length then "🎯 Multiple advisors have insights to share:\n\n"
      else "🎯 Here's what I found: "
    let body :=
      String.join (advisors.map (fun p => p.1 ++ "\n" ++ sepLine ++ "\n" ++ p.2 ++ "\n"))
    let hint :=
      if advisors.length = 1 then hintFor (advisors.getD 0 ("", "")).1 else ""
    header ++ body ++ hint ++ "\n\n⏰ " ++ now

/-- One entry of the server-side `download_storage` dict (pdf entries carry
no format; report entries do). -/
structure DownloadEntry where
  type : String
  format : Option String
  data : String
  advisor : String
  timestamp : String
deriving DecidableEq, Repr

/-- The JSON reply of the `chat` route. -/
structure ChatReply where
  reply : String
  hasPdf : Bool
  downloadUrl : Option String
deriving DecidableEq, Repr

/-- The chat reply text for a PDF marker (`AskMeChatBot.py` line 1183). -/
def pdfReadyReply (advisorName : String) : String :=
  "🎯 Here's what I found: " ++ advisorName ++ " Advisor 💰\n" ++ sepLine ++
    "\n📄 Your report is ready!\n\nClick the button below to download the PDF report."

/-- The chat reply text for a report marker (`AskMeChatBot.py` line 1210). -/
def reportReadyReply (advisorName fmtUpper : String) : String :=
  "🎯 Here's what I found:\n\n" ++ advisorName ++ " Advisor 📊\n" ++ sepLine ++
    "\n📊 Your analytics report is ready!\n\nClick the button below to download the " ++
    fmtUpper ++ " report."

/-- The download-marker handling of the `chat` route
(`AskMeChatBot.py` lines 1158-1224): a PDF_DOWNLOAD marker in the formatted
response is parsed into advisor name and base64 data (advisor "Finance" and
the whole marker when the old single-part format is seen), stored under a
fresh download id, and replaced by the ready reply with a download link; a
REPORT_DOWNLOAD marker is handled likewise with a format part; otherwise the
formatted text is the reply.  `freshId` abstracts the generated uuid and
`ts` the stored timestamp. -/
def chatAssemble (advisors : List (String × String)) (now freshId ts : String)
    (storage : List (String × DownloadEntry)) :
    ChatReply × List (String × DownloadEntry) :=
  let formatted := formatResponse advisors now
  if pyIn "PDF_DOWNLOAD:" formatted then
    let marker := pyStrip (afterFirst "PDF_DOWNLOAD:" formatted)
    match splitFirstColon marker with
    | some (advisorName, pdfData) =>
      ({ reply := pdfReadyReply advisorName, hasPdf := true,
         downloadUrl := some ("/download_pdf/" ++ freshId) },
       (freshId, { type := "pdf", format := none, data := pdfData,
                   advisor := advisorName, timestamp := ts }) :: storage)
    | none =>
      ({ reply := pdfReadyReply "Finance", hasPdf := true,
         downloadUrl := some ("/download_pdf/" ++ freshId) },
       (freshId, { type := "pdf", format := none, data := marker,
                   advisor := "Finance", timestamp := ts }) :: storage)
  else if pyIn "REPORT_DOWNLOAD:" formatted then
    let marker := pyStrip (afterFirst "REPORT_DOWNLOAD:" formatted)
    match splitFirstColon marker with
    | some (advisorName, rest) =>
      match splitFirstColon rest with
      | some (fmt, rdata) =>
        ({ reply := reportReadyReply advisorName (pyUpper (pyLower fmt)),
           hasPdf := true, downloadUrl := some ("/download_report/" ++ freshId) },
         (freshId, { type := "report", format := some (pyLower fmt), data := rdata,
                     advisor := advisorName, timestamp := ts }) :: storage)
      | none =>
        ({ reply := "⚠️ Error: Invalid report format", hasPdf := false,
           downloadUrl := none }, storage)
    | none =>
      ({ reply := "⚠️ Error: Invalid report format", hasPdf := false,
         downloadUrl := none }, storage)
  else ({ reply := formatted, hasPdf := false, downloadUrl := none }, storage)

/-! ## The download route (`AskMeChatBot.py` lines 1229-1259; the same logic
appears in `RCOEGenAIAgents.py` lines 533-555) -/

/-- The HTTP response of the `download_pdf` route. -/
inductive HttpDownloadResult : Type
  | notFound (msg : String) (code : Nat)
  | file (bytes : List Nat) (mimetype : String) (filename : String)
  | serverError (msg : String) (code : Nat)
deriving DecidableEq, Repr

/-- `download_pdf`: look the id up in `download_storage`; a missing entry or
a non-pdf type is a 404; invalid base64 raises and is served as a 500; on
success the decoded bytes are sent as a file.  The store is never written
(the source deliberately keeps the data to allow retries), and is returned
alongside the response. -/
def downloadPdf (storage : List (String × DownloadEntry)) (downloadId : String) :
    HttpDownloadResult × List (String × DownloadEntry) :=
  match storage.lookup downloadId with
  | none => (HttpDownloadResult.notFound "No PDF available for download" 404, storage)
  | some e =>
    if e.type ≠ "pdf" then
      (HttpDownloadResult.notFound "No PDF available for download" 404, storage)
    else
      match b64Decode e.data with
      | none => (HttpDownloadResult.serverError "Error downloading PDF" 500, storage)
      | some bytes =>
        (HttpDownloadResult.file bytes "application/pdf"
          ("Finance_Report_" ++ e.timestamp ++ ".pdf"), storage)

/-! ## Helper lemmas -/

theorem containsL_nil (n : List Char) : containsL n [] = n.isPrefixOf [] := by
  rw [containsL]; simp

theorem containsL_cons (n : List Char) (c : Char) (t : List Char) :
    containsL n (c :: t) = (n.isPrefixOf (c :: t) || containsL n t) := by
  rw [containsL]

theorem countFuel_eq_zero (n : List Char) :
    ∀ (fuel : Nat) (h : List Char), containsL n h = false → countFuel n fuel h = 0 := by
  intro fuel
  induction fuel with
  | zero => intro h _; rfl
  | succ f ih =>
    intro h hc
    cases h with
    | nil =>
      rw [containsL_nil] at hc
      simp [countFuel, hc]
    | cons c t =>
      rw [containsL_cons, Bool.or_eq_false_iff] at hc
      simp [countFuel, hc.1, ih t hc.2]

theorem countL_eq_zero (n h : List Char) (hc : containsL n h = false) :
    countL n h = 0 := by
  have hn : n ≠ [] := by
    intro he
    subst he
    cases h with
    | nil => rw [containsL_nil] at hc; simp [List.isPrefixOf] at hc
    | cons c t => rw [containsL_cons] at hc; simp [List.isPrefixOf] at hc
  rw [countL, if_neg hn]
  exact countFuel_eq_zero n _ h hc

theorem wordCount_eq_zero (kws : List String) (s : String)
    (hk : ∀ kw ∈ kws, pyIn kw s = false) : wordCount kws s = 0 := by
  induction kws with
  | nil => rfl
  | cons k t ih =>
    simp only [wordCount, List.map_cons, List.sum_cons]
    have h1 : pyCount k s = 0 := countL_eq_zero _ _ (hk k (by simp))
    have h2 : wordCount t s = 0 := ih (fun kw hkw => hk kw (by simp [hkw]))
    simp only [wordCount] at h2
    omega

theorem anyKeywordIn_eq_false (kws : List String) (s : String)
    (hk : ∀ kw ∈ kws, pyIn kw s = false) : anyKeywordIn kws s = false := by
  simp only [anyKeywordIn, List.any_eq_false]
  intro kw hkw
  simp [hk kw hkw]

/-! ## Claim theorems -/

/-- C1 counterexample: the query "help with finance" matches a general-advisor
keyword, yet keyword routing in `func_replica.process_chat` (classifier off)
also invokes the Finance advisor, so the routing does not produce exactly one
`AdvisorResult` from the General agent. -/
theorem general_precedence_counterexample :
    anyKeywordIn rGeneralKeywords (pyLower "help with finance") = true ∧
    anyKeywordIn rFinanceKeywords (pyLower "help with finance") = true ∧
    processChat true IntentMode.off none "help with finance" =
      [Advisor.general, Advisor.finance] := by decide

/-- C1 (amended): in `AskMeChatBot.process_user_query` keyword routing, a
general-keyword match yields exactly the General agent and no other advisor
(and the keyword path is what runs whenever the classifier is off or failed);
but in `func_replica.process_chat` keyword routing, a general-keyword match
merely places the General advisor first, and every other advisor whose
keywords also match is additionally invoked. -/
theorem general_precedence_amended :
    (∀ prompt : String, anyKeywordIn generalKeywords (pyLower prompt) = true →
      askmeKeywordRoute prompt = [Advisor.general]) ∧
    (∀ (avail : Bool) (mode : IntentMode) (prompt : String),
      processUserQuery avail mode none prompt = askmeKeywordRoute prompt) ∧
    (∀ prompt : String, anyKeywordIn rGeneralKeywords (pyLower prompt) = true →
      processChat true IntentMode.off none prompt =
        Advisor.general ::
          ((if anyKeywordIn rFinanceKeywords (pyLower prompt) then [Advisor.finance] else []) ++
           (if anyKeywordIn rHrKeywords (pyLower prompt) then [Advisor.hr] else []) ++
           (if anyKeywordIn rOrdersKeywords (pyLower prompt) then [Advisor.orders] else []) ++
           (if anyKeywordIn rReportsKeywords (pyLower prompt) then [Advisor.reports] else []))) := by
  refine ⟨?_, ?_, ?_⟩
  · intro prompt h
    rw [askmeKeywordRoute]
    simp [h]
  · intro avail mode prompt
    cases avail <;> cases mode <;>
      simp [processUserQuery, detectIntentWithGenai]
  · intro prompt h
    rw [processChat]
    simp only [reduceIte, replicaDetectIntent, h]
    simp [h]

/-- C1 amended witness. -/
theorem general_precedence_amended_witness :
    askmeKeywordRoute "help" = [Advisor.general] ∧
    processUserQuery true IntentMode.auto none "help" = askmeKeywordRoute "help" ∧
    processChat true IntentMode.off none "order help" =
      [Advisor.general, Advisor.orders] := by
  refine ⟨general_precedence_amended.1 "help" (by decide),
          general_precedence_amended.2.1 true IntentMode.auto "help", ?_⟩
  have h := general_precedence_amended.2.2 "order help" (by decide)
  rw [h]
  decide

/-- C4 counterexample: the classifier output "category: finance" is not
exactly one of the five labels, yet `func_replica.detect_intent` accepts it by
substring matching, so routing differs from the classifier-unavailable
outcome (keyword fallback on the query "hello" selects general). -/
theorem classifier_fallback_counterexample :
    validIntents.contains (pyLower (pyStrip "category: finance")) = false ∧
    processChat true IntentMode.auto (some "category: finance") "hello" =
      [Advisor.finance] ∧
    processChat true IntentMode.auto none "hello" = [Advisor.general] := by decide

/-- C4 (amended): in `AskMeChatBot.py`, any classifier output that is not
exactly a valid label (after strip and lower-casing) makes routing identical
to the classifier-unavailable outcome, under both auto and force, without
failing the request.  In `func_replica.py` the same equivalence holds only
for outputs that do not contain any label as a substring: an output merely
containing a label routes to that label. -/
theorem classifier_fallback_amended :
    (∀ (mode : IntentMode) (t prompt : String), mode ≠ IntentMode.off →
      validIntents.contains (pyLower (pyStrip t)) = false →
      processUserQuery true mode (some t) prompt =
        processUserQuery true mode none prompt) ∧
    (∀ (mode : IntentMode) (t prompt : String), mode ≠ IntentMode.off →
      (∀ i ∈ INTENTS, pyIn i (pyLower (pyStrip t)) = false) →
      processChat true mode (some t) prompt =
        processChat true mode none prompt) := by
  constructor
  · intro mode t prompt hmode hvalid
    have hmem : pyLower (pyStrip t) ∉ validIntents := by simpa using hvalid
    simp [processUserQuery, detectIntentWithGenai, hmem, hmode]
  · intro mode t prompt hmode hsub
    have hfind : INTENTS.find? (fun intent => pyIn intent (pyLower (pyStrip t))) = none := by
      rw [List.find?_eq_none]
      intro i hi
      simp [hsub i hi]
    simp [processChat, replicaDetectIntent, hmode, hfind]

/-- C4 amended witness. -/
theorem classifier_fallback_amended_witness :
    processUserQuery true IntentMode.auto (some "banana") "hello" =
      processUserQuery true IntentMode.auto none "hello" ∧
    processChat true IntentMode.force (some "xyz") "hello" =
      processChat true IntentMode.force none "hello" :=
  ⟨classifier_fallback_amended.1 IntentMode.auto "banana" "hello" (by decide) (by decide),
   classifier_fallback_amended.2 IntentMode.force "xyz" "hello" (by decide) (by decide)⟩

/-- C5: for a query in which no advisor keyword occurs as a substring of the
lower-cased query, all four non-general occurrence counts computed by
`process_user_query` are zero, and keyword routing defaults to exactly the
General agent. -/
theorem no_keyword_defaults_general (prompt : String)
    (hnone : ∀ kw ∈ generalKeywords ++ financeKeywords ++ hrKeywords ++
        ordersKeywords ++ reportsKeywords, pyIn kw (pyLower prompt) = false) :
    wordCount financeKeywords (pyLower prompt) = 0 ∧
    wordCount hrKeywords (pyLower prompt) = 0 ∧
    wordCount ordersKeywords (pyLower prompt) = 0 ∧
    wordCount reportsKeywords (pyLower prompt) = 0 ∧
    askmeKeywordRoute prompt = [Advisor.general] := by
  have hg : ∀ kw ∈ generalKeywords, pyIn kw (pyLower prompt) = false :=
    fun kw h => hnone kw (by simp [h])
  have hf : ∀ kw ∈ financeKeywords, pyIn kw (pyLower prompt) = false :=
    fun kw h => hnone kw (by simp [h])
  have hh : ∀ kw ∈ hrKeywords, pyIn kw (pyLower prompt) = false :=
    fun kw h => hnone kw (by simp [h])
  have ho : ∀ kw ∈ ordersKeywords, pyIn kw (pyLower prompt) = false :=
    fun kw h => hnone kw (by simp [h])
  have hr : ∀ kw ∈ reportsKeywords, pyIn kw (pyLower prompt) = false :=
    fun kw h => hnone kw (by simp [h])
  have wf := wordCount_eq_zero _ _ hf
  have wh := wordCount_eq_zero _ _ hh
  have wo := wordCount_eq_zero _ _ ho
  have wr := wordCount_eq_zero _ _ hr
  refine ⟨wf, wh, wo, wr, ?_⟩
  rw [askmeKeywordRoute]
  simp [anyKeywordIn_eq_false _ _ hg, anyKeywordIn_eq_false _ _ hf,
        anyKeywordIn_eq_false _ _ hh, anyKeywordIn_eq_false _ _ ho,
        anyKeywordIn_eq_false _ _ hr, wf, wh, wo, wr]

/-- C3 counterexample: in mock mode the Reports adapter of `func_replica.py`
attaches a pending artifact to its canned response, so it is not the case
that every mock-mode adapter returns text with no artifact attached. -/
theorem mock_reports_artifact_counterexample :
    (advisorReportsMock "00000000-0000-0000-0000-000000000000").artifact =
      some { id := "00000000-0000-0000-0000-000000000000", type := "pdf",
             status := "pending" } := rfl

/-- C3 (amended): every mock-mode adapter returns a canned text (pure, no
network interaction is modelled because the mock branches perform none), and
every adapter except Reports attaches no artifact; the Reports mock attaches
a pending pdf artifact.  In particular the query
"show me the purchase order report" in mock mode yields the Finance default
canned text with source mock (not error) and no artifact or download
marker. -/
theorem mock_mode_amended :
    getFinanceAdviceMock "show me the purchase order report" =
      "The annual budget allocation shows 40% for R&D, 30% for Operations, and 30% for Marketing." ∧
    pyIn "PDF_DOWNLOAD:" (getFinanceAdviceMock "show me the purchase order report") = false ∧
    advisorFinanceMock.artifact = none ∧
    advisorFinanceMock.source = "mock" ∧
    advisorFinanceMock.source ≠ "error" ∧
    advisorHrMock.artifact = none ∧
    advisorHrMock.source = "mock" ∧
    advisorOrdersMock.artifact = none ∧
    advisorOrdersMock.source = "mock" ∧
    advisorGeneralStatic.artifact = none ∧
    advisorGeneralStatic.source = "static" ∧
    (∀ freshId : String, (advisorReportsMock freshId).source = "mock" ∧
      (advisorReportsMock freshId).artifact =
        some { id := freshId, type := "pdf", status := "pending" }) := by
  refine ⟨by decide, by decide, rfl, rfl, by decide, rfl, rfl, rfl, rfl, rfl,
    rfl, fun freshId => ⟨rfl, rfl⟩⟩

/-- C7: the Reports download loop waits a fixed 30 seconds, then makes at
most 3 attempts with a fixed 10-second inter-attempt delay, stopping at the
first HTTP 200: if attempt k (k < 3) is the first 200, the result is a
REPORT_DOWNLOAD artifact marker built from the base64-encoded body (after
30 + 10·k seconds of sleeping); if no attempt returns 200 the result is the
retry-exhausted failure text with no artifact marker (after 50 seconds). -/
theorem reports_retry_loop_spec :
    (∀ (f : Nat → DLOutcome) (k : Nat) (body : List Nat), k < 3 →
      f k = DLOutcome.resp 200 body →
      (∀ j, j < k → (f j).isOk = false) →
      reportsDownloadLoop f =
        ("REPORT_DOWNLOAD:Reports:PDF:" ++ b64Encode body, 30 + 10 * k)) ∧
    (∀ f : Nat → DLOutcome, (∀ j, j < 3 → (f j).isOk = false) →
      reportsDownloadLoop f =
        ("Reports download failed after retries. Please try again later.", 50) ∧
      pyIn "REPORT_DOWNLOAD:"
        "Reports download failed after retries. Please try again later." = false) := by
  have hstat : ∀ (f : Nat → DLOutcome) (j s b), (f j).isOk = false →
      f j = DLOutcome.resp s b → s ≠ 200 := by
    intro f j s b hok hf
    rw [hf] at hok
    simpa [DLOutcome.isOk] using hok
  constructor
  · intro f k body hk hsucc hfail
    interval_cases k
    · simp [reportsDownloadLoop, runAttemptsAux, hsucc]
    · cases hf0 : f 0 with
      | resp s b =>
        have hs : s ≠ 200 := hstat f 0 s b (hfail 0 (by omega)) hf0
        simp [reportsDownloadLoop, runAttemptsAux, hf0, hs, hsucc]
      | timeout =>
        simp [reportsDownloadLoop, runAttemptsAux, hf0, hsucc]
    · cases hf0 : f 0 with
      | resp s b =>
        have hs : s ≠ 200 := hstat f 0 s b (hfail 0 (by omega)) hf0
        cases hf1 : f 1 with
        | resp s1 b1 =>
          have hs1 : s1 ≠ 200 := hstat f 1 s1 b1 (hfail 1 (by omega)) hf1
          simp [reportsDownloadLoop, runAttemptsAux, hf0, hs, hf1, hs1, hsucc]
        | timeout =>
          simp [reportsDownloadLoop, runAttemptsAux, hf0, hs, hf1, hsucc]
      | timeout =>
        cases hf1 : f 1 with
        | resp s1 b1 =>
          have hs1 : s1 ≠ 200 := hstat f 1 s1 b1 (hfail 1 (by omega)) hf1
          simp [reportsDownloadLoop, runAttemptsAux, hf0, hf1, hs1, hsucc]
        | timeout =>
          simp [reportsDownloadLoop, runAttemptsAux, hf0, hf1, hsucc]
  · intro f hfail
    refine ⟨?_, by decide⟩
    cases hf0 : f 0 with
    | resp s b =>
      have hs : s ≠ 200 := hstat f 0 s b (hfail 0 (by omega)) hf0
      cases hf1 : f 1 with
      | resp s1 b1 =>
        have hs1 : s1 ≠ 200 := hstat f 1 s1 b1 (hfail 1 (by omega)) hf1
        cases hf2 : f 2 with
        | resp s2 b2 =>
          have hs2 : s2 ≠ 200 := hstat f 2 s2 b2 (hfail 2 (by omega)) hf2
          simp [reportsDownloadLoop, runAttemptsAux, hf0, hs, hf1, hs1, hf2, hs2]
        | timeout =>
          simp [reportsDownloadLoop, runAttemptsAux, hf0, hs, hf1, hs1, hf2]
      | timeout =>
        cases hf2 : f 2 with
        | resp s2 b2 =>
          have hs2 : s2 ≠ 200 := hstat f 2 s2 b2 (hfail 2 (by omega)) hf2
          simp [reportsDownloadLoop, runAttemptsAux, hf0, hs, hf1, hf2, hs2]
        | timeout =>
          simp [reportsDownloadLoop, runAttemptsAux, hf0, hs, hf1, hf2]
    | timeout =>
      cases hf1 : f 1 with
      | resp s1 b1 =>
        have hs1 : s1 ≠ 200 := hstat f 1 s1 b1 (hfail 1 (by omega)) hf1
        cases hf2 : f 2 with
        | resp s2 b2 =>
          have hs2 : s2 ≠ 200 := hstat f 2 s2 b2 (hfail 2 (by omega)) hf2
          simp [reportsDownloadLoop, runAttemptsAux, hf0, hf1, hs1, hf2, hs2]
        | timeout =>
          simp [reportsDownloadLoop, runAttemptsAux, hf0, hf1, hs1, hf2]
      | timeout =>
        cases hf2 : f 2 with
        | resp s2 b2 =>
          have hs2 : s2 ≠ 200 := hstat f 2 s2 b2 (hfail 2 (by omega)) hf2
          simp [reportsDownloadLoop, runAttemptsAux, hf0, hf1, hf2, hs2]
        | timeout =>
          simp [reportsDownloadLoop, runAttemptsAux, hf0, hf1, hf2]

/-- C7 witness: two failed attempts (a 500, then a timeout) followed by a 200
carrying the bytes of "%PDF" yield the ready marker; three failures yield the
retry-exhausted text. -/
theorem reports_retry_loop_spec_witness :
    reportsDownloadLoop (fun i => if i = 0 then DLOutcome.resp 500 []
        else if i = 1 then DLOutcome.timeout
        else DLOutcome.resp 200 [37, 80, 68, 70]) =
      ("REPORT_DOWNLOAD:Reports:PDF:" ++ b64Encode [37, 80, 68, 70], 50) ∧
    reportsDownloadLoop (fun _ => DLOutcome.resp 503 []) =
      ("Reports download failed after retries. Please try again later.", 50) := by
  constructor
  · exact reports_retry_loop_spec.1 _ 2 [37, 80, 68, 70] (by omega) rfl
      (by intro j hj; interval_cases j <;> rfl)
  · exact (reports_retry_loop_spec.2 _ (by intro j hj; rfl)).1

/-- C8: given orders with parseable last-update timestamps T3 > T2 > T1 (all
after datetime.min) supplied in input order [T3, T1, T2] plus one entry whose
timestamp cannot be parsed, the rendered sort is descending by timestamp with
the unparsable entry last: [T3, T2, T1, unparsable]. -/
theorem orders_sort_spec (e3 e1 e2 eu : OrderItem)
    (h32 : parseDtKey e2.lastUpdateDate < parseDtKey e3.lastUpdateDate)
    (h21 : parseDtKey e1.lastUpdateDate < parseDtKey e2.lastUpdateDate)
    (h1m : dtMin < parseDtKey e1.lastUpdateDate)
    (hu : unparsableTS eu.lastUpdateDate = true) :
    sortOrdersByDate [e3, e1, e2, eu] = [e3, e2, e1, eu] := by
  have hku : parseDtKey eu.lastUpdateDate = dtMin := by
    cases h : eu.lastUpdateDate with
    | none => simp [parseDtKey]
    | some str =>
      rw [h] at hu
      simp only [unparsableTS, Option.isNone_iff_eq_none] at hu
      simp [parseDtKey, hu]
  have hA : parseDtKey eu.lastUpdateDate ≤ parseDtKey e2.lastUpdateDate := by omega
  have hB : ¬ parseDtKey e2.lastUpdateDate ≤ parseDtKey e1.lastUpdateDate := by omega
  have hC : parseDtKey eu.lastUpdateDate ≤ parseDtKey e1.lastUpdateDate := by omega
  have hD : parseDtKey e2.lastUpdateDate ≤ parseDtKey e3.lastUpdateDate := by omega
  simp [sortOrdersByDate, sortDescBy, insertDescBy, hA, hB, hC, hD]

/-- C8 witness: concrete timestamps 2024-03-05 > 2024-02-03 > 2024-01-02 and
the unparsable string "not-a-date". -/
theorem orders_sort_spec_witness :
    sortOrdersByDate
      [{ orderKey := "A3", statusCode := "OPEN", createdBy := "u",
         lastUpdateDate := some "2024-03-05T10:00:00" },
       { orderKey := "A1", statusCode := "OPEN", createdBy := "u",
         lastUpdateDate := some "2024-01-02T08:30:00" },
       { orderKey := "A2", statusCode := "OPEN", createdBy := "u",
         lastUpdateDate := some "2024-02-03T09:15:00" },
       { orderKey := "AX", statusCode := "OPEN", createdBy := "u",
         lastUpdateDate := some "not-a-date" }] =
      [{ orderKey := "A3", statusCode := "OPEN", createdBy := "u",
         lastUpdateDate := some "2024-03-05T10:00:00" },
       { orderKey := "A2", statusCode := "OPEN", createdBy := "u",
         lastUpdateDate := some "2024-02-03T09:15:00" },
       { orderKey := "A1", statusCode := "OPEN", createdBy := "u",
         lastUpdateDate := some "2024-01-02T08:30:00" },
       { orderKey := "AX", statusCode := "OPEN", createdBy := "u",
         lastUpdateDate := some "not-a-date" }] :=
  orders_sort_spec _ _ _ _ (by decide) (by decide) (by decide) (by decide)

/-- C2 counterexample: the download/finalize action on artifact `a1`, whose
stored status is pending and whose backing export job has not produced any
bytes, returns the artifact as ready — with fabricated placeholder content
written to the store — instead of reporting not-ready or a storage error. -/
theorem finalize_pending_fabricates :
    (processDownload true pendingStore "a1").1 =
      DownloadResult.ready
        { id := "a1", type := "pdf", advisor := "reports", status := "ready",
          filename := "Analytics_Report_1.pdf", created := "2025-01-01T00:00:00Z",
          contentType := some "application/pdf", size := some 53 }
        "artifact/a1.pdf" "Artifact ready: Analytics_Report_1.pdf" ∧
    ((processDownload true pendingStore "a1").2).bins.lookup "artifact/a1.pdf" =
      some dummyPdf := by
  constructor <;> rfl

/-- C2 (amended): when the persistence backend is unavailable the download
action reports an explicit storage error, and a missing metadata record
reports an explicit error; but a download on a pending artifact does not wait
for the backing job — it simulates completion, writing a placeholder PDF and
returning the artifact as ready with that fabricated content. -/
theorem download_pending_amended :
    (∀ (s : ObjectStore) (id : String),
      (processDownload false s id).1 = DownloadResult.storageError) ∧
    (∀ (s : ObjectStore) (id : String),
      s.metas.lookup ("artifact/" ++ id ++ ".json") = none →
      (processDownload true s id).1 = DownloadResult.metadataError) ∧
    (∀ (s : ObjectStore) (id : String) (meta : ArtifactMeta),
      s.metas.lookup ("artifact/" ++ id ++ ".json") = some meta →
      meta.status = "pending" →
      (processDownload true s id).1 =
        DownloadResult.ready
          { meta with
            status := "ready", size := some dummyPdf.length,
            contentType := some "application/pdf" }
          ("artifact/" ++ id ++ ".pdf") ("Artifact ready: " ++ meta.filename) ∧
      ((processDownload true s id).2).bins.lookup ("artifact/" ++ id ++ ".pdf") =
        some dummyPdf) := by
  refine ⟨fun s id => rfl, ?_, ?_⟩
  · intro s id h
    simp [processDownload, h]
  · intro s id meta h hp
    constructor
    · simp [processDownload, h, hp]
    · simp [processDownload, h, hp, putMeta, putBin, List.lookup]

/-- C2 amended witness. -/
theorem download_pending_amended_witness :
    (processDownload false { metas := [], bins := [] } "x").1 =
      DownloadResult.storageError ∧
    (processDownload true { metas := [], bins := [] } "x").1 =
      DownloadResult.metadataError ∧
    (processDownload true
        { metas := [("artifact/a2.json", pendingMeta2)], bins := [] } "a2").1 =
      DownloadResult.ready
        { pendingMeta2 with
          status := "ready", size := some dummyPdf.length,
          contentType := some "application/pdf" }
        "artifact/a2.pdf" ("Artifact ready: " ++ pendingMeta2.filename) :=
  ⟨download_pending_amended.1 { metas := [], bins := [] } "x",
   download_pending_amended.2.1 { metas := [], bins := [] } "x" (by decide),
   (download_pending_amended.2.2
      { metas := [("artifact/a2.json", pendingMeta2)], bins := [] }
      "a2" pendingMeta2 (by decide) rfl).1⟩

/-- C9: a download/finalize call on an artifact whose stored metadata status
is ready is a no-op on the store and returns that same metadata (so status
never transitions away from ready). -/
theorem finalize_ready_noop (s : ObjectStore) (id : String) (meta : ArtifactMeta)
    (h : s.metas.lookup ("artifact/" ++ id ++ ".json") = some meta)
    (hr : meta.status = "ready") :
    processDownload true s id =
      (DownloadResult.ready meta ("artifact/" ++ id ++ ".pdf")
        ("Artifact ready: " ++ meta.filename), s) := by
  have hnp : meta.status ≠ "pending" := by rw [hr]; decide
  simp [processDownload, h, hnp, hr]

/-- C9 witness. -/
theorem finalize_ready_noop_witness :
    processDownload true
      { metas := [("artifact/b2.json",
          { id := "b2", type := "pdf", advisor := "finance", status := "ready",
            filename := "Finance_Report_1.pdf", created := "2025-01-01T00:00:00Z",
            contentType := some "application/pdf", size := some 4 })],
        bins := [("artifact/b2.pdf", [1, 2, 3, 4])] } "b2" =
      (DownloadResult.ready
        { id := "b2", type := "pdf", advisor := "finance", status := "ready",
          filename := "Finance_Report_1.pdf", created := "2025-01-01T00:00:00Z",
          contentType := some "application/pdf", size := some 4 }
        "artifact/b2.pdf" "Artifact ready: Finance_Report_1.pdf",
       { metas := [("artifact/b2.json",
          { id := "b2", type := "pdf", advisor := "finance", status := "ready",
            filename := "Finance_Report_1.pdf", created := "2025-01-01T00:00:00Z",
            contentType := some "application/pdf", size := some 4 })],
         bins := [("artifact/b2.pdf", [1, 2, 3, 4])] }) :=
  finalize_ready_noop _ _ _ (by decide) rfl

/-- C6 counterexample: when an HR text and a Finance PDF marker are merged,
the assembler returns the raw marker alone, and the final chat reply is the
report-ready text that nowhere contains the HR advisor's response — the
other advisor's text is not formatted into the response. -/
theorem assembler_drops_other_texts :
    formatResponse
      [("HR Advisor 👥", "HRTEXT"), ("Finance Advisor 💰", "PDF_DOWNLOAD:Finance:QUJD")]
      "12:00:00" = "PDF_DOWNLOAD:Finance:QUJD" ∧
    (chatAssemble
      [("HR Advisor 👥", "HRTEXT"), ("Finance Advisor 💰", "PDF_DOWNLOAD:Finance:QUJD")]
      "12:00:00" "id1" "20250101_000000" []).1.reply = pdfReadyReply "Finance" ∧
    pyIn "HRTEXT"
      ((chatAssemble
        [("HR Advisor 👥", "HRTEXT"), ("Finance Advisor 💰", "PDF_DOWNLOAD:Finance:QUJD")]
        "12:00:00" "id1" "20250101_000000" []).1.reply) = false := by decide

/-- C6 (amended): when at least one merged result carries a download marker,
the assembler returns the FIRST marker-bearing result's raw text alone —
every other advisor's text is dropped rather than formatted into the
response — and the chat route then replaces the marker with a "your report
is ready" reply plus a download reference, storing the payload under a fresh
download id. -/
theorem assembler_marker_amended :
    (∀ (advisors : List (String × String)) (now : String) (p : String × String),
      p ∈ advisors → containsMarker p.2 = true →
      ∃ q : String × String,
        advisors.find? (fun r => containsMarker r.2) = some q ∧
        formatResponse advisors now = q.2) ∧
    (∀ (advisors : List (String × String)) (now freshId ts : String)
        (storage : List (String × DownloadEntry)),
      pyIn "PDF_DOWNLOAD:" (formatResponse advisors now) = true →
      ∃ (name : String) (entry : DownloadEntry),
        (chatAssemble advisors now freshId ts storage).1 =
          { reply := pdfReadyReply name, hasPdf := true,
            downloadUrl := some ("/download_pdf/" ++ freshId) } ∧
        (chatAssemble advisors now freshId ts storage).2 =
          (freshId, entry) :: storage) := by
  constructor
  · intro advisors now p hp hm
    rcases hq : advisors.find? (fun r => containsMarker r.2) with _ | q
    · rw [List.find?_eq_none] at hq
      exact absurd hm (by simpa using hq p hp)
    · exact ⟨q, hq, by simp [formatResponse, hq]⟩
  · intro advisors now freshId ts storage hpdf
    rcases hs : splitFirstColon
        (pyStrip (afterFirst "PDF_DOWNLOAD:" (formatResponse advisors now))) with
      _ | ⟨name, dat⟩
    · exact ⟨"Finance",
        { type := "pdf", format := none,
          data := pyStrip (afterFirst "PDF_DOWNLOAD:" (formatResponse advisors now)),
          advisor := "Finance", timestamp := ts },
        by simp [chatAssemble, hpdf, hs], by simp [chatAssemble, hpdf, hs]⟩
    · exact ⟨name,
        { type := "pdf", format := none, data := dat,
          advisor := name, timestamp := ts },
        by simp [chatAssemble, hpdf, hs], by simp [chatAssemble, hpdf, hs]⟩

/-- C6 amended witness. -/
theorem assembler_marker_amended_witness :
    (∃ q : String × String,
      [("A", "PDF_DOWNLOAD:Finance:QUJD")].find? (fun r => containsMarker r.2) =
        some q ∧
      formatResponse [("A", "PDF_DOWNLOAD:Finance:QUJD")] "12:00:00" = q.2) ∧
    (∃ (name : String) (entry : DownloadEntry),
      (chatAssemble [("A", "PDF_DOWNLOAD:Finance:QUJD")] "12:00:00" "id9" "t" []).1 =
        { reply := pdfReadyReply name, hasPdf := true,
          downloadUrl := some ("/download_pdf/" ++ "id9") } ∧
      (chatAssemble [("A", "PDF_DOWNLOAD:Finance:QUJD")] "12:00:00" "id9" "t" []).2 =
        [("id9", entry)]) := by
  constructor
  · exact assembler_marker_amended.1 [("A", "PDF_DOWNLOAD:Finance:QUJD")] "12:00:00"
      ("A", "PDF_DOWNLOAD:Finance:QUJD") (by decide) (by decide)
  · have h := assembler_marker_amended.2 [("A", "PDF_DOWNLOAD:Finance:QUJD")]
      "12:00:00" "id9" "t" [] (by decide)
    simpa using h

/-- C10: serving a stored download never mutates or removes anything from
the server-side download store, and for every id stored with type pdf and
valid base64 data, each GET succeeds with the decoded bytes, and a repeated
GET returns the identical response. -/
theorem download_pdf_frame :
    (∀ (storage : List (String × DownloadEntry)) (id : String),
      (downloadPdf storage id).2 = storage) ∧
    (∀ (storage : List (String × DownloadEntry)) (id : String)
        (e : DownloadEntry) (bytes : List Nat),
      storage.lookup id = some e → e.type = "pdf" →
      b64Decode e.data = some bytes →
      (downloadPdf storage id).1 =
        HttpDownloadResult.file bytes "application/pdf"
          ("Finance_Report_" ++ e.timestamp ++ ".pdf") ∧
      (downloadPdf (downloadPdf storage id).2 id).1 = (downloadPdf storage id).1) := by
  have hframe : ∀ (storage : List (String × DownloadEntry)) (id : String),
      (downloadPdf storage id).2 = storage := by
    intro storage id
    rw [downloadPdf]
    rcases storage.lookup id with _ | e
    · rfl
    · dsimp only
      split
      · rfl
      · rcases b64Decode e.data with _ | bytes <;> rfl
  refine ⟨hframe, ?_⟩
  intro storage id e bytes hl ht hd
  refine ⟨by simp [downloadPdf, hl, ht, hd], ?_⟩
  rw [hframe]

/-- C10 witness: the entry "d1" stores base64 "QUJD", which decodes to the
bytes of "ABC"; the store is unchanged and the served file carries exactly
those bytes. -/
theorem download_pdf_frame_witness :
    (downloadPdf
      [("d1", { type := "pdf", format := none, data := "QUJD",
                advisor := "Finance", timestamp := "20250101_000000" })] "d1").2 =
      [("d1", { type := "pdf", format := none, data := "QUJD",
                advisor := "Finance", timestamp := "20250101_000000" })] ∧
    (downloadPdf
      [("d1", { type := "pdf", format := none, data := "QUJD",
                advisor := "Finance", timestamp := "20250101_000000" })] "d1").1 =
      HttpDownloadResult.file [65, 66, 67] "application/pdf"
        "Finance_Report_20250101_000000.pdf" := by
  constructor
  · exact download_pdf_frame.1
      [("d1", { type := "pdf", format := none, data := "QUJD",
                advisor := "Finance", timestamp := "20250101_000000" })] "d1"
  · have h := (download_pdf_frame.2
      [("d1", { type := "pdf", format := none, data := "QUJD",
                advisor := "Finance", timestamp := "20250101_000000" })] "d1"
      { type := "pdf", format := none, data := "QUJD",
        advisor := "Finance", timestamp := "20250101_000000" }
      [65, 66, 67] (by decide) rfl (by decide)).1
    simpa using h

/-- C5 witness. -/
theorem no_keyword_defaults_general_witness :
    wordCount financeKeywords (pyLower "xyz") = 0 ∧
    wordCount hrKeywords (pyLower "xyz") = 0 ∧
    wordCount ordersKeywords (pyLower "xyz") = 0 ∧
    wordCount reportsKeywords (pyLower "xyz") = 0 ∧
    askmeKeywordRoute "xyz" = [Advisor.general] :=
  no_keyword_defaults_general "xyz" (by decide)

end OCIBot
